import Mathlib

/-!
Verification development for the `scipy_doctest` package.

This file gives a shallow embedding of the parts of the package that the
properties below are about:

* `DTConfig.init`, `DTChecker.init` — the configuration bag and the checker
  construction (src/scipy_doctest/impl.py).
* `check_output` and its helpers `try_convert_namedtuple`,
  `try_convert_printed_array`, `has_masked`, `try_split_shape_from_abbrv` —
  the output equivalence checker (impl.py lines 226-441).
* `get_examples` — the block-skip / stopword filter of `DTParser`
  (impl.py lines 561-610).
* `get_all_list`, `get_public_objects`, `find_doctests_api` — the "api"
  discovery strategy (util.py lines 173-255, frontend.py lines 72-82).

Modelling conventions:

* Python strings are Lean `String`s; all string algorithms work on the
  underlying `List Char` so that every definition reduces in the kernel.
  Functions whose Python counterpart loops on a shrinking string take an
  explicit fuel argument; callers pass a fuel that is an obvious upper bound
  (the string length plus a constant), so the fuel never runs out on the
  inputs the functions are applied to.
* Python values produced by `eval` are modelled by `PyVal`: ints, floats
  (exact rationals — the claims below do not depend on binary rounding),
  `nan`, signed infinity, `None`, lists and tuples.  The checker's `eval`
  is modelled by `pyEvalStr`, a parser for the Python literal fragment that
  the checker's curated namespace can produce without calling functions:
  numeric literals, `None`, the constant names bound in the namespace
  (`nan`, `inf`, ...), list and tuple displays, and unary minus.  Call
  expressions (`array(...)` etc.) are outside the fragment and fail to
  evaluate, as does any other text that raises in Python.
* `check_output` returns a `CheckResult`: `ret b` for a normal return,
  `exhausted` when the recursion budget runs out (the Python code has no
  budget: `exhausted` for every budget models non-termination /
  `RecursionError`), and `err` for an escaping exception (the
  `AttributeError` of an unset `config.check_namespace`).
-/

set_option maxRecDepth 8000

/-- Python's whitespace set for `str.split()` / `str.strip()` / `\s`. -/
def isPyWs (c : Char) : Bool :=
  c = ' ' || c = '\t' || c = '\n' || c = '\r' || c = '\x0b' || c = '\x0c'

/-- The characters of a string literal. -/
def toL (s : String) : List Char := s.data

/-- Python `sub in s` (substring containment). -/
def containsL (s pat : List Char) : Bool :=
  s.tails.any (fun t => pat.isPrefixOf t)

/-- Python `s.startswith(pat)`. -/
def startsL (s pat : List Char) : Bool := pat.isPrefixOf s

/-- Python `s.endswith(pat)`. -/
def endsL (s pat : List Char) : Bool := pat.reverse.isPrefixOf s.reverse

/-- Python `s.lstrip()`. -/
def lstripL (s : List Char) : List Char := s.dropWhile (fun c => isPyWs c)

/-- Python `s.strip()`. -/
def stripL (s : List Char) : List Char :=
  ((s.dropWhile (fun c => isPyWs c)).reverse.dropWhile (fun c => isPyWs c)).reverse

/-- Index of the first occurrence of `pat` (nonempty in all uses) in `s`. -/
def findSubIdx (pat : List Char) : List Char → Option Nat
  | [] => if pat = [] then some 0 else none
  | c :: rest =>
    if pat.isPrefixOf (c :: rest) then some 0
    else (findSubIdx pat rest).map (· + 1)

/-- Python `s.split(pat)` for a nonempty separator `pat`; `fuel` bounds the
number of splits (callers pass `s.length + 1`, which always suffices). -/
def splitOnL (fuel : Nat) (pat s : List Char) : List (List Char) :=
  match fuel with
  | 0 => [s]
  | fuel + 1 =>
    match findSubIdx pat s with
    | none => [s]
    | some i => s.take i :: splitOnL fuel pat (s.drop (i + pat.length))

/-- `sep.join(parts)`. -/
def joinL (sep : List Char) : List (List Char) → List Char
  | [] => []
  | [p] => p
  | p :: ps => p ++ sep ++ joinL sep ps

/-- Python `s.replace(pat, rep)` (all occurrences, left to right, `pat`
nonempty in all uses); `fuel ≥ s.length` always suffices. -/
def replaceL (fuel : Nat) (pat rep s : List Char) : List Char :=
  match fuel, s with
  | 0, s => s
  | _, [] => []
  | fuel + 1, c :: rest =>
    if pat ≠ [] && pat.isPrefixOf (c :: rest) then
      rep ++ replaceL fuel pat rep ((c :: rest).drop pat.length)
    else
      c :: replaceL fuel pat rep rest

/-- Python `s.split()` (split on whitespace runs, no empty tokens);
`fuel ≥ s.length` always suffices. -/
def splitWsL (fuel : Nat) (s : List Char) : List (List Char) :=
  match fuel, s with
  | 0, _ => []
  | _, [] => []
  | fuel + 1, c :: rest =>
    if isPyWs c then splitWsL fuel rest
    else
      (c :: rest.takeWhile (fun x => !isPyWs x)) ::
        splitWsL fuel (rest.dropWhile (fun x => !isPyWs x))

/-- Python `" ".join(s.split())` — the NORMALIZE_WHITESPACE normal form. -/
def normWsL (s : List Char) : List Char :=
  joinL [' '] (splitWsL s.length s)

/-- Remove every occurrence of `pat`: Python `''.join(s.split(pat))`. -/
def removeAllSub (s pat : List Char) : List Char :=
  joinL [] (splitOnL (s.length + 1) pat s)

/-- `[0-9a-fA-F]`. -/
def isHexDigitB (c : Char) : Bool :=
  c.isDigit || ('a' ≤ c && c ≤ 'f') || ('A' ≤ c && c ≤ 'F')

/-- Python `\w` restricted to ASCII (`[a-zA-Z0-9_]`), as used by the
`[\w\d_]` classes of the checker's regexes. -/
def isWordCharB (c : Char) : Bool := c.isAlphanum || c = '_'

/-- `re.search(r'at 0x[0-9a-fA-F]+>', s)`: some position starts with
`at 0x`, followed by at least one hex digit and then `>`
(`DTChecker.obj_pattern`). -/
def objPatternSearch (s : List Char) : Bool :=
  s.tails.any fun t =>
    match t with
    | 'a' :: 't' :: ' ' :: '0' :: 'x' :: rest =>
      let hexs := rest.takeWhile isHexDigitB
      !hexs.isEmpty && (rest.drop hexs.length).head? = some '>'
    | _ => false

/-! Rational arithmetic via `mkRat`, so that every arithmetic step reduces
inside the kernel (the `Rat.add`/`Rat.mul`/... of the library are
irreducible by design).  Bridge lemmas identifying these with the field
operations of `ℚ` are proved where the theorems need them. -/

/-- `a + b` on `ℚ`, kernel-computable. -/
def qAdd (a b : ℚ) : ℚ := mkRat (a.num * b.den + b.num * a.den) (a.den * b.den)

/-- `a - b` on `ℚ`, kernel-computable. -/
def qSub (a b : ℚ) : ℚ := mkRat (a.num * b.den - b.num * a.den) (a.den * b.den)

/-- `a * b` on `ℚ`, kernel-computable. -/
def qMul (a b : ℚ) : ℚ := mkRat (a.num * b.num) (a.den * b.den)

/-- `|a|` on `ℚ`, kernel-computable. -/
def qAbs (a : ℚ) : ℚ := mkRat (Int.ofNat a.num.natAbs) a.den

/-- `-a` on `ℚ`, kernel-computable. -/
def qNeg (a : ℚ) : ℚ := mkRat (-a.num) a.den

/-- Values of the Python-value fragment the checker manipulates. -/
inductive PyVal where
  | int (n : ℤ)
  | float (q : ℚ)
  | nan
  | inf (pos : Bool)
  | pynone
  | list (xs : List PyVal)
  | tuple (xs : List PyVal)

/-- A namespace for `eval`: names bound to representable values. -/
def Namespace := List (String × PyVal)

/-- Digit run to a natural number. -/
def digitsToNat (ds : List Char) : Nat :=
  ds.foldl (fun acc c => 10 * acc + (c.toNat - '0'.toNat)) 0

/-- Python unary minus on the value fragment (fails on non-numbers,
as `-[1]` raises `TypeError`). -/
def pyNeg : PyVal → Option PyVal
  | .int n => some (.int (-n))
  | .float q => some (.float (qNeg q))
  | .nan => some .nan
  | .inf p => some (.inf (!p))
  | _ => none

/-- Numeric literal: `digits` (an int) or `digits . digits?` (a float). -/
def parseNumber (cs : List Char) : Option (PyVal × List Char) :=
  let ds := cs.takeWhile Char.isDigit
  if ds.isEmpty then none
  else
    match cs.drop ds.length with
    | '.' :: rest =>
      let fs := rest.takeWhile Char.isDigit
      let q : ℚ :=
        mkRat (Int.ofNat (digitsToNat ds * 10 ^ fs.length + digitsToNat fs))
          (10 ^ fs.length)
      some (.float q, rest.drop fs.length)
    | rest => some (.int (Int.ofNat (digitsToNat ds)), rest)

mutual

/-- Parse one expression of the literal fragment starting at `cs`;
returns the value and the unconsumed rest.  `fuel ≥ cs.length + 2`
always suffices (each recursion level consumes at least one character). -/
def parseExpr (fuel : Nat) (ns : Namespace) (cs : List Char) :
    Option (PyVal × List Char) :=
  match fuel with
  | 0 => none
  | fuel + 1 =>
    match cs with
    | '-' :: rest =>
      match parseAtom fuel ns (rest.dropWhile (fun c => isPyWs c)) with
      | some (v, rest') => (pyNeg v).map (fun w => (w, rest'))
      | none => none
    | _ => parseAtom fuel ns cs

/-- Parse an atom: a bracketed display, a parenthesised expression or
tuple, a numeric literal, `None`, or a namespace constant. -/
def parseAtom (fuel : Nat) (ns : Namespace) (cs : List Char) :
    Option (PyVal × List Char) :=
  match fuel with
  | 0 => none
  | fuel + 1 =>
    match cs with
    | '[' :: rest =>
      match parseElems fuel ns ']' (rest.dropWhile (fun c => isPyWs c)) with
      | some (vs, rest') => some (.list vs, rest')
      | none => none
    | '(' :: rest =>
      let rest := rest.dropWhile (fun c => isPyWs c)
      match rest with
      | ')' :: rest' => some (.tuple [], rest')
      | _ =>
        match parseExpr fuel ns rest with
        | none => none
        | some (v, rest') =>
          match rest'.dropWhile (fun c => isPyWs c) with
          | ')' :: rest'' => some (v, rest'')  -- parenthesised expression
          | ',' :: rest'' =>
            match parseElems fuel ns ')'
                (rest''.dropWhile (fun c => isPyWs c)) with
            | some (vs, rest''') => some (.tuple (v :: vs), rest''')
            | none => none
          | _ => none
    | c :: _ =>
      if c.isDigit then parseNumber cs
      else if isWordCharB c then
        let name := cs.takeWhile isWordCharB
        let rest := cs.drop name.length
        if name = toL "None" then some (.pynone, rest)
        else
          match List.lookup (String.mk name) ns with
          | some v => some (v, rest)
          | none => none
      else none
    | [] => none

/-- Parse `expr (, expr)* ,?` up to the closing character `close`
(which is consumed).  The empty element list is only reached for `[]`
(the empty-tuple case is handled by the caller). -/
def parseElems (fuel : Nat) (ns : Namespace) (close : Char)
    (cs : List Char) : Option (List PyVal × List Char) :=
  match fuel with
  | 0 => none
  | fuel + 1 =>
    match cs with
    | c :: rest =>
      if c = close then some ([], rest)
      else
        match parseExpr fuel ns cs with
        | none => none
        | some (v, rest') =>
          match rest'.dropWhile (fun c => isPyWs c) with
          | c' :: rest'' =>
            if c' = close then some ([v], rest'')
            else if c' = ',' then
              match parseElems fuel ns close
                  (rest''.dropWhile (fun c => isPyWs c)) with
              | some (vs, rest''') => some (v :: vs, rest''')
              | none => none
            else none
          | [] => none
    | [] => none

end

/-- Model of `eval(s, dict(ns))` on the literal fragment.  Leading
whitespace is a syntax error in Python's `eval` (kept faithfully);
trailing whitespace is allowed. -/
def pyEvalStr (ns : Namespace) (s : String) : Option PyVal :=
  match parseExpr (s.data.length + 2) ns s.data with
  | some (v, rest) => if rest.all (fun c => isPyWs c) then some v else none
  | none => none

/-! ## The final numeric comparison (`DTChecker._do_check` and the
`np.allclose` / `zip_longest` machinery of `check_output`, impl.py
lines 399-441). -/

/-- A numeric scalar as `np.isclose` sees it. -/
inductive NScal where
  | fin (q : ℚ)
  | nan
  | inf (pos : Bool)

/-- The numeric scalars of the fragment (`None`, lists, tuples are not
scalars). -/
def asScalar : PyVal → Option NScal
  | .int n => some (.fin (mkRat n 1))
  | .float q => some (.fin q)
  | .nan => some .nan
  | .inf p => some (.inf p)
  | _ => none

/-- The elements of a Python iterable of the fragment (lists and tuples;
scalars and `None` raise `TypeError` when iterated). -/
def elemsOf : PyVal → Option (List PyVal)
  | .list xs => some xs
  | .tuple xs => some xs
  | _ => none

/-- `np.isclose(a, b, rtol, atol, equal_nan=True)` on scalars:
`|a - b| <= atol + rtol * |b|`, NaN equal to NaN, infinities equal when
they have the same sign. -/
def closeScal (atol rtol : ℚ) : NScal → NScal → Bool
  | .fin a, .fin b => qAbs (qSub a b) ≤ qAdd atol (qMul rtol (qAbs b))
  | .nan, .nan => true
  | .inf p, .inf q => p = q
  | _, _ => false

/-- Conjunction over `Option Bool`s where `none` is an error: any error
poisons the whole result (numpy evaluates elementwise with no
short-circuit; an exception escapes `allclose`). -/
def optAll (l : List (Option Bool)) : Option Bool :=
  l.foldr
    (fun o acc =>
      match o, acc with
      | some x, some y => some (x && y)
      | _, _ => none)
    (some true)

/-- Model of `np.allclose(a, b, atol=atol, rtol=rtol, equal_nan=True)` on
the value fragment.  Sequences compare elementwise; a length-1 sequence
broadcasts against any length, a scalar broadcasts against a sequence
(numpy broadcasting, exact for scalars and equal-depth rectangular
nestings — the shapes the checker meets).  Non-numeric leaves (`None`)
and non-broadcastable lengths are errors (`TypeError` / `ValueError`),
returned as `none`.  `fuel` bounds the nesting depth; callers pass a
bound that exceeds the depth of any value they supply. -/
def npCloseV (fuel : Nat) (atol rtol : ℚ) (a b : PyVal) : Option Bool :=
  match fuel with
  | 0 => none
  | fuel + 1 =>
    match asScalar a, asScalar b with
    | some x, some y => some (closeScal atol rtol x y)
    | some _, none =>
      match elemsOf b with
      | some ys => optAll (ys.map (fun y => npCloseV fuel atol rtol a y))
      | none => none
    | none, some _ =>
      match elemsOf a with
      | some xs => optAll (xs.map (fun x => npCloseV fuel atol rtol x b))
      | none => none
    | none, none =>
      match elemsOf a, elemsOf b with
      | some xs, some ys =>
        if xs.length = ys.length then
          optAll ((xs.zip ys).map (fun p => npCloseV fuel atol rtol p.1 p.2))
        else
          match xs, ys with
          | [x], _ => optAll (ys.map (fun y => npCloseV fuel atol rtol x y))
          | _, [y] => optAll (xs.map (fun x => npCloseV fuel atol rtol x y))
          | _, _ => none
      | _, _ => none

/-- Python `==` on the value fragment (`nan` is not equal to anything,
numeric kinds compare by value, sequences elementwise, `list ≠ tuple`).
`fuel` bounds the nesting depth. -/
def pyEqV (fuel : Nat) (a b : PyVal) : Bool :=
  match fuel with
  | 0 => false
  | fuel + 1 =>
    match a, b with
    | .int n, .int m => n = m
    | .int n, .float q => mkRat n 1 = q
    | .float q, .int n => q = mkRat n 1
    | .float p, .float q => p = q
    | .inf p, .inf q => p = q
    | .pynone, .pynone => true
    | .list xs, .list ys =>
      xs.length = ys.length &&
        ((xs.zip ys).all fun p => pyEqV fuel p.1 p.2)
    | .tuple xs, .tuple ys =>
      xs.length = ys.length &&
        ((xs.zip ys).all fun p => pyEqV fuel p.1 p.2)
    | _, _ => false

/-- The dtypes `np.asarray` can infer on the fragment. -/
inductive DTy where
  | int64
  | float64
  | object
deriving DecidableEq

/-- dtype promotion: `object` absorbs, `float64` dominates `int64`. -/
def dtyJoin : DTy → DTy → DTy
  | .object, _ => .object
  | _, .object => .object
  | .float64, _ => .float64
  | _, .float64 => .float64
  | .int64, .int64 => .int64

/-- `np.asarray(v).dtype` on the fragment: `none` models the
`ValueError` numpy raises on ragged / inhomogeneous nestings.
Scalars: ints are `int64`, floats / `nan` / `inf` are `float64`,
`None` is `object`; an empty list defaults to `float64`. -/
def asarrayDtype (fuel : Nat) (v : PyVal) : Option DTy :=
  match fuel with
  | 0 => none
  | fuel + 1 =>
    match v with
    | .int _ => some .int64
    | .float _ => some .float64
    | .nan => some .float64
    | .inf _ => some .float64
    | .pynone => some .object
    | .list xs => asarrayDtypeSeq fuel xs
    | .tuple xs => asarrayDtypeSeq fuel xs
where
  /-- dtype of a sequence: children must exist and agree in shape
  (all scalar-like, or all sequences of consistent dtype). -/
  asarrayDtypeSeq (fuel : Nat) (xs : List PyVal) : Option DTy :=
    let ds := xs.map (asarrayDtype fuel)
    let allSeq := xs.all (fun x => (elemsOf x).isSome)
    let noSeq := xs.all (fun x => (elemsOf x).isNone)
    if !(allSeq || noSeq) then none  -- mixed depth: inhomogeneous
    else
      ds.foldr
        (fun o acc =>
          match o, acc with
          | some d, some d' => some (dtyJoin d d')
          | _, _ => none)
        (some .float64)

/-- `itertools.zip_longest(xs, ys)` with the default `None` fill value. -/
def zipLongestL : List PyVal → List PyVal → List (PyVal × PyVal)
  | [], ys => ys.map (fun y => (PyVal.pynone, y))
  | x :: xs, [] => (x, PyVal.pynone) :: zipLongestL xs []
  | x :: xs, y :: ys => (x, y) :: zipLongestL xs ys

/-- `DTChecker._do_check(want, got, strict_check)` (impl.py lines
418-441): optional strict dtype comparison, then literal `==` (its
exceptions are ignored; total on the fragment), then `np.allclose`.
`none` is an escaping exception. -/
def doCheckV (fuel : Nat) (strict : Bool) (atol rtol : ℚ) (w g : PyVal) :
    Option Bool :=
  if strict then
    match asarrayDtype fuel w, asarrayDtype fuel g with
    | some dw, some dg =>
      if dw ≠ dg then some false
      else if pyEqV fuel w g then some true
      else npCloseV fuel atol rtol w g
    | _, _ => none
  else if pyEqV fuel w g then some true
  else npCloseV fuel atol rtol w g

/-- Lines 399-416 of `check_output`: the list/tuple kind check, then
`_do_check`, and on an exception the `zip_longest` elementwise fallback
(`all(...)`), whose own exceptions and the `TypeError` of iterating a
non-iterable yield `False`.  Python's `all` short-circuits on the first
`False`; since a later exception also produces `False`, the result is
`True` exactly when every pair checks `some true`, which is what is
computed here.  `isLTv` is `isinstance(v, (list, tuple))`. -/
def isLTv : PyVal → Bool
  | .list _ => true
  | .tuple _ => true
  | _ => false

/-- `type(a_want) is not type(a_got)` for two list-or-tuple values. -/
def kindClash : PyVal → PyVal → Bool
  | .list _, .tuple _ => true
  | .tuple _, .list _ => true
  | _, _ => false

def finalCompare (fuel : Nat) (strict : Bool) (atol rtol : ℚ)
    (a_want a_got : PyVal) : Bool :=
  if isLTv a_want && isLTv a_got && kindClash a_want a_got then false
  else
    match doCheckV fuel strict atol rtol a_want a_got with
    | some b => b
    | none =>
      match elemsOf a_want, elemsOf a_got with
      | some ws, some gs =>
        (zipLongestL ws gs).all
          (fun p => doCheckV fuel strict atol rtol p.1 p.2 = some true)
      | _, _ => false

/-! ## The baseline comparator: `doctest.OutputChecker.check_output` with
the package's default optionflags `NORMALIZE_WHITESPACE | ELLIPSIS |
IGNORE_EXCEPTION_DETAIL` (the third one does not affect
`check_output`).  Modelled from the standard library's `doctest`
module, which the package defers to at impl.py line 326. -/

/-- Split into lines at `'\n'` (Python's `(?m)` per-line view). -/
def splitLines : List Char → List (List Char)
  | [] => [[]]
  | '\n' :: rest => [] :: splitLines rest
  | c :: rest =>
    match splitLines rest with
    | l :: ls => (c :: l) :: ls
    | [] => [[c]]

/-- Reassemble lines with `'\n'`. -/
def joinLines (ls : List (List Char)) : List Char := joinL ['\n'] ls

/-- `re.sub(r'(?m)^<BLANKLINE>\s*?$', '', want)`: empty every line that
is `<BLANKLINE>` followed only by whitespace. -/
def blanklineWant (s : List Char) : List Char :=
  joinLines ((splitLines s).map fun l =>
    if startsL l (toL "<BLANKLINE>") &&
        (l.drop (toL "<BLANKLINE>").length).all (fun c => isPyWs c) then []
    else l)

/-- `re.sub(r'(?m)^[^\S\n]+$', '', got)`: empty every line made of
whitespace only (at least one character). -/
def blanklineGot (s : List Char) : List Char :=
  joinLines ((splitLines s).map fun l =>
    if !l.isEmpty && l.all (fun c => isPyWs c) then [] else l)

/-- Python `got.find(w, start, stop)` (`none` for `-1`). -/
def findFromL (got w : List Char) (start stop : Nat) : Option Nat :=
  let stop' := min stop got.length
  if start > stop' then none
  else
    (List.range (stop' - start + 1)).findSome? fun i =>
      let p := start + i
      if p + w.length ≤ stop' && w.isPrefixOf (got.drop p) then some p
      else none

/-- The search loop of `doctest._ellipsis_match`: each remaining piece
must occur, in order, inside `got[startpos:endpos]`. -/
def emLoop (got : List Char) (startpos endpos : Nat) :
    List (List Char) → Bool
  | [] => true
  | w :: rest =>
    match findFromL got w startpos endpos with
    | none => false
    | some p => emLoop got (p + w.length) endpos rest

/-- `doctest._ellipsis_match(want, got)`. -/
def ellipsisMatchL (want got : List Char) : Bool :=
  let marker := toL "..."
  if !containsL want marker then want = got
  else
    match splitOnL (want.length + 1) marker want with
    | [] => true
    | w0 :: rest0 =>
      if !w0.isEmpty && !w0.isPrefixOf got then false
      else
        let startpos := if !w0.isEmpty then w0.length else 0
        let ws1 := if !w0.isEmpty then rest0 else w0 :: rest0
        match ws1.getLast? with
        | none => true
        | some wl =>
          if !wl.isEmpty && !endsL got wl then false
          else
            let endpos := got.length - (if !wl.isEmpty then wl.length else 0)
            let ws2 := if !wl.isEmpty then ws1.dropLast else ws1
            if startpos > endpos then false
            else emLoop got startpos endpos ws2

/-- `doctest.OutputChecker().check_output(want, got, optionflags)` with
the default flags: exact match, the `True`/`1` and `False`/`0`
equivalences, then the BLANKLINE erasures, whitespace normalisation,
and ellipsis matching on the normalised text. -/
def vanillaCheck (want got : String) : Bool :=
  if got.data = want.data then true
  else if got.data = toL "True\n" && want.data = toL "1\n" then true
  else if got.data = toL "False\n" && want.data = toL "0\n" then true
  else
    let w1 := blanklineWant want.data
    let g1 := blanklineGot got.data
    let gN := normWsL g1
    let wN := normWsL w1
    if gN = wN then true
    else ellipsisMatchL wN gN

/-! ## The syntax-repair helpers of the checker (impl.py lines 226-291). -/

/-- `[m, m-1, ..., 1]`: candidate lengths for a greedy `(.+)`. -/
def descLens (m : Nat) : List Nat := (List.range m).map (fun k => m - k)

/-- Match `[\w\d_]+=` at the head; return the rest after `=`. -/
def fieldNameMatch (cs : List Char) : Option (List Char) :=
  let run := cs.takeWhile isWordCharB
  if run.isEmpty then none
  else
    match cs.drop run.length with
    | '=' :: rest => some rest
    | _ => none

/-- Greedy matching of `(.+)` followed by `n` further `, [\w\d_]+=(.+)`
fields and a closing `)`, as the backtracking regex engine does: the
longest value that lets the remainder match wins. -/
def matchVals : Nat → List Char → Option (List String)
  | 0, cs =>
    (descLens cs.length).findSome? fun len =>
      match cs.drop len with
      | ')' :: _ => some [String.mk (cs.take len)]
      | _ => none
  | n + 1, cs =>
    (descLens cs.length).findSome? fun len =>
      match cs.drop len with
      | ',' :: ' ' :: rest2 =>
        match fieldNameMatch rest2 with
        | some rest3 =>
          (matchVals n rest3).map (fun vs => String.mk (cs.take len) :: vs)
        | none => none
      | _ => none

/-- Try the full namedtuple pattern `[\w\d_]+\([\w\d_]+=(.+), ...\)`
at the head of `t` (`num ≥ 1` fields). -/
def matchStart (num : Nat) (t : List Char) : Option (List String) :=
  let run := t.takeWhile isWordCharB
  if run.isEmpty then none
  else
    match t.drop run.length with
    | '(' :: rest =>
      match fieldNameMatch rest with
      | some rest2 => matchVals (num - 1) rest2
      | none => none
    | _ => none

/-- `try_convert_namedtuple(got)` (impl.py lines 226-239): count the
`=` signs, build the field regex, `re.findall` it on the
whitespace-normalised text (leftmost match, greedy groups), and fold
the captured values back into a tuple.  `none` models the `IndexError`
of `grp[0]` when `findall` finds nothing. -/
def try_convert_namedtuple (got : String) : Option String :=
  let num := got.data.count '='
  if num = 0 then some got
  else
    match (normWsL got.data).tails.findSome? (fun t => matchStart num t) with
    | some grp =>
      some (String.mk ('(' :: joinL [',', ' '] (grp.map toL) ++ [')']))
    | none => none

/-- `try_convert_printed_array(got)` (impl.py lines 242-263): reinsert
commas in a printed array, handling the rows of a 2-D repr. -/
def try_convert_printed_array (got : String) : String :=
  if !startsL got.data ['['] then got
  else
    let g1 := (got.data.drop 1).dropLast
    let rows := (splitOnL (g1.length + 1) ['['] g1).filter (fun r => !r.isEmpty)
    let rows2 := rows.map (fun row => joinL [',', ' '] (splitWsL row.length row))
    let rows3 :=
      if startsL got.data (toL "[[") then rows2.map (fun r => '[' :: r)
      else rows2
    String.mk ('[' :: joinL [',', ' '] rows3 ++ [']'])

/-- `has_masked(got)` (impl.py lines 266-267). -/
def has_masked (got : String) : Bool :=
  containsL got.data (toL "masked_array") && containsL got.data (toL "--")

/-- The anchored greedy match of
`re.match(r'(.+),\s+shape=\(([\d\s,]+)\)(.+)', s, re.DOTALL)`:
the rightmost comma followed by whitespace, `shape=(`, a nonempty
digit/whitespace/comma run, `)` and at least one further character.
Returns `(group1, group2, group3)`. -/
def shapeMatchL (cs : List Char) : Option (List Char × List Char × List Char) :=
  (descLens cs.length).findSome? fun i =>
    match cs.drop i with
    | ',' :: rest =>
      let wsrun := rest.takeWhile isPyWs
      if wsrun.isEmpty then none
      else
        let rest2 := rest.drop wsrun.length
        if !startsL rest2 (toL "shape=(") then none
        else
          let rest3 := rest2.drop (toL "shape=(").length
          let cls := rest3.takeWhile
            (fun c => c.isDigit || isPyWs c || c = ',')
          if cls.isEmpty then none
          else
            match rest3.drop cls.length with
            | ')' :: after =>
              if after.isEmpty then none
              else some (cs.take i, cls, after)
            | _ => none
    | _ => none

/-- `try_split_shape_from_abbrv(s_got)` (impl.py lines 270-290): if a
`shape=(...)` annotation is present and the regex matches, cut it out
(gluing group1 and group3, collapsing the doubled comma), and return
the shape string; in every case remove every `...,` from the result. -/
def try_split_shape_from_abbrv (s_got : String) : String × String :=
  if containsL s_got.data (toL "shape=") then
    match shapeMatchL s_got.data with
    | some (g0, g1, gl) =>
      let glued := g0 ++ gl
      let s2 := replaceL glued.length (toL ",,") [','] glued
      (String.mk (removeAllSub s2 (toL "...,")), String.mk ('(' :: g1 ++ [')']))
    | none => (String.mk (removeAllSub s_got.data (toL "...,")), "")
  else (String.mk (removeAllSub s_got.data (toL "...,")), "")

/-! ## The configuration bag (`DTConfig.__init__`, impl.py lines 109-223)
and the checker (`DTChecker`, impl.py lines 293-441). -/

/-- The attribute record a `DTConfig` instance carries after
`__init__`.  `check_namespace` is an `Option`: `none` means the
attribute was never assigned, so that reading it raises
`AttributeError`.  Fields not read by any code modelled here
(`optionflags`, `user_context_mgr`, the pytest switches, ...) are
omitted. -/
structure DTConfig where
  check_namespace : Option Namespace
  rndm_markers : List String
  atol : ℚ
  rtol : ℚ
  strict_check : Bool
  stopwords : List String
  pseudocode : List String
  skiplist : List String
  parse_namedtuples : Bool

/-- The constant bindings of the default `check_namespace` dict that the
value fragment can represent (impl.py lines 142-166); the callable
entries (`np`, `array`, `assert_allclose`, ...) and the complex
sentinels are not representable as fragment values — names bound to
them simply fail to evaluate in the fragment, as any call expression
does. -/
def default_check_namespace : Namespace :=
  [("nan", .nan), ("NaN", .nan), ("inf", .inf true), ("Inf", .inf true)]

/-- `DTConfig.__init__` on the modelled fields, with `none` for an
omitted (`None`) keyword argument.  Note the faithful quirk for
`check_namespace`: the statement `self.check_namespace = check_namespace`
sits *inside* the `if check_namespace is None:` block (impl.py lines
141-167), so a user-supplied namespace is never assigned and the
attribute stays unset. -/
def DTConfig.init (check_namespace : Option Namespace)
    (rndm_markers : Option (List String)) (atol rtol : ℚ)
    (strict_check : Bool)
    (stopwords pseudocode skiplist : Option (List String))
    (parse_namedtuples : Bool) : DTConfig where
  check_namespace :=
    match check_namespace with
    | none => some default_check_namespace
    | some _ => none
  rndm_markers :=
    rndm_markers.getD
      ["# random", "# Random", "#random", "#Random", "# may vary"]
  atol := atol
  rtol := rtol
  strict_check := strict_check
  stopwords :=
    stopwords.getD
      ["plt.", ".hist", ".show", ".ylim", ".subplot(",
       "set_title", "imshow", "plt.show", ".axis(", ".plot(",
       ".bar(", ".title", ".ylabel", ".xlabel", "set_ylim", "set_xlim",
       "# reformatted", ".set_xlabel(", ".set_ylabel(", ".set_zlabel(",
       ".set(xlim=", ".set(ylim=", ".set(xlabel=", ".set(ylabel=",
       ".xlim(", "ax.set("]
  pseudocode := pseudocode.getD []
  skiplist :=
    skiplist.getD
      ["scipy.special.sinc", "scipy.misc.who", "scipy.optimize.show_options"]
  parse_namedtuples := parse_namedtuples

/-- `DTConfig()` with every argument defaulted. -/
def DTConfig.default : DTConfig :=
  DTConfig.init none none (mkRat 1 100000000) (mkRat 1 100) false
    none none none true

/-- The checker state `DTChecker.__init__` builds from a config
(impl.py lines 297-304): `atol`/`rtol` are copied, and the private
sentinel `'# _ignore'` is unconditionally added to the random markers.
The remaining fields are read from `self.config` at call time. -/
structure Checker where
  config : DTConfig
  atol : ℚ
  rtol : ℚ
  rndm_markers : List String

/-- `DTChecker(config)`. -/
def DTChecker.init (config : DTConfig) : Checker where
  config := config
  atol := config.atol
  rtol := config.rtol
  rndm_markers := "# _ignore" :: config.rndm_markers

/-- Outcome of a `check_output` call: a returned boolean, a spent
recursion budget (the Python code, having no budget, does not
terminate when this holds for every budget), or an escaping
exception. -/
inductive CheckResult where
  | ret (b : Bool)
  | exhausted
  | err
deriving DecidableEq, Repr

/-- `DTChecker.check_output(want, got, optionflags)` (impl.py lines
306-416) with the default optionflags.  In order: the exact-equality,
random-marker, object-address and leading-comment passes; the vanilla
doctest comparison; evaluation of both strings in the checker's
namespace (an unset `check_namespace` attribute raises
`AttributeError`, modelled as `err`); on success the final numeric
comparison, on failure the repair chain — printed-array commas,
abbreviated-array cleanup, masked-value replacement, the no-`=`
rejection, and the namedtuple fold — each repair recursing on the
rewritten strings. -/
def check_output (ch : Checker) : Nat → String → String → CheckResult
  | 0, _, _ => .exhausted
  | fuel + 1, want, got =>
    if want.data = got.data then .ret true
    else if ch.rndm_markers.any (fun w => containsL want.data w.data) then
      .ret true
    else if objPatternSearch got.data then .ret true
    else if (lstripL want.data).head? = some '#' then .ret true
    else if vanillaCheck want got then .ret true
    else
      match ch.config.check_namespace with
      | none => .err
      | some ns =>
        match pyEvalStr ns want, pyEvalStr ns got with
        | some a_want, some a_got =>
          .ret (finalCompare (want.data.length + got.data.length + 2)
            ch.config.strict_check ch.atol ch.rtol a_want a_got)
        | _, _ =>
          let s_want := stripL want.data
          let s_got := stripL got.data
          if startsL s_want ['['] && endsL s_want [']'] &&
              startsL s_got ['['] && endsL s_got [']'] then
            check_output ch fuel
              (try_convert_printed_array (String.mk s_want))
              (try_convert_printed_array (String.mk s_got))
          else if startsL s_want (toL "array([") &&
              containsL s_want (toL "...") &&
              startsL s_got (toL "array([") &&
              containsL s_got (toL "...") then
            let ws := try_split_shape_from_abbrv (String.mk s_want)
            let gs := try_split_shape_from_abbrv (String.mk s_got)
            if !gs.2.data.isEmpty then
              check_output ch fuel (ws.1 ++ ", " ++ ws.2) (gs.1 ++ ", " ++ gs.2)
            else
              check_output ch fuel ws.1 gs.1
          else if has_masked want || has_masked got then
            check_output ch fuel
              (String.mk (replaceL want.data.length (toL "--") (toL "nan")
                want.data))
              (String.mk (replaceL got.data.length (toL "--") (toL "nan")
                got.data))
          else if !containsL want.data ['='] && !containsL got.data ['='] then
            .ret false
          else if !ch.config.parse_namedtuples then .ret false
          else
            match try_convert_namedtuple got, try_convert_namedtuple want with
            | some got_again, some want_again =>
              check_output ch fuel want_again got_again
            | _, _ => .ret false

/-! ## The example filter `DTParser.get_examples` (impl.py lines 561-610). -/

/-- `doctest.OPTIONFLAGS_BY_NAME['SKIP']` (a fixed stdlib flag bit). -/
def SKIP : Nat := 16

/-- The flag bit `doctest.register_optionflag('SKIPBLOCK')` returns
(impl.py line 22); its only relevant property is being distinct
from `SKIP`. -/
def SKIPBLOCK : Nat := 2048

/-- A parsed `doctest.Example`: the fields `get_examples` reads or
writes (source text, expected output, the options dict). -/
structure ExampleM where
  source : String
  want : String
  options : List (Nat × Bool)
deriving DecidableEq

/-- One item of the `DocTestParser.parse` output: an `Example` or an
intervening text string. -/
inductive ParseItem where
  | text (s : String)
  | ex (e : ExampleM)

/-- `flag in example.options` — Python key membership (note: presence,
not truth, is what line 589 tests). -/
def dictKeyMem (k : Nat) (d : List (Nat × Bool)) : Bool :=
  d.any (fun p => p.1 = k)

/-- `example.options[flag] = v` (the parser produces unique keys; the
model updates every entry with the key). -/
def dictSet (d : List (Nat × Bool)) (k : Nat) (v : Bool) : List (Nat × Bool) :=
  if dictKeyMem k d then d.map (fun p => if p.1 = k then (k, v) else p)
  else d ++ [(k, v)]

/-- `example.options.get(flag)`. -/
def dictGet (d : List (Nat × Bool)) (k : Nat) : Option Bool :=
  (d.find? (fun p => p.1 = k)).map (fun p => p.2)

/-- The loop of `get_examples` (impl.py lines 581-610), with the
threaded `keep_skipping_this_block` flag made explicit; returns the
selected examples and the final flag.  A non-`Example` item resets the
flag only when the text is non-empty (Python truthiness) and is not
appended; an example is marked `SKIP` when it carries the `SKIPBLOCK`
key or the flag is set; pseudocode matches add `SKIP`; random-marker
and stopword matches append the `'  # _ignore\n'` sentinel to the
expected output. -/
def processExample (cfg : DTConfig) (keep : Bool) (e : ExampleM) :
    ExampleM × Bool :=
  let blockskip := dictKeyMem SKIPBLOCK e.options || keep
  let e1 :=
    if blockskip then { e with options := dictSet e.options SKIP true }
    else e
  let keep1 := if blockskip then true else keep
  let e2 :=
    if cfg.pseudocode.any (fun w => containsL e1.source.data w.data) then
      { e1 with options := dictSet e1.options SKIP true }
    else e1
  let e3 :=
    if cfg.rndm_markers.any (fun w => containsL e2.source.data w.data) then
      { e2 with want := e2.want ++ "  # _ignore\n" }
    else e2
  let e4 :=
    if cfg.stopwords.any (fun w => containsL e3.source.data w.data) then
      { e3 with want := e3.want ++ "  # _ignore\n" }
    else e3
  (e4, keep1)

/-- The recursion over the parse items. -/
def getExamplesAux (cfg : DTConfig) :
    Bool → List ParseItem → List ExampleM × Bool
  | keep, [] => ([], keep)
  | keep, .text s :: rest =>
    getExamplesAux cfg (if !s.data.isEmpty then false else keep) rest
  | keep, .ex e :: rest =>
    let pe := processExample cfg keep e
    let r := getExamplesAux cfg pe.2 rest
    (pe.1 :: r.1, r.2)

/-- `DTParser.get_examples` — the flag starts `False` (line 579). -/
def get_examples (cfg : DTConfig) (items : List ParseItem) : List ExampleM :=
  (getExamplesAux cfg false items).1

/-- The spec's block-skip state machine: states `NORMAL`, `SKIPPING`
(spec.md §4.3, "State machine for block-skip parsing"). -/
inductive BlockState where
  | normal
  | skipping
deriving DecidableEq

/-- The state as the code's boolean flag. -/
def stateBool : BlockState → Bool
  | .normal => false
  | .skipping => true

/-- The spec's transition relation, written from the spec's words:
`NORMAL → SKIPPING` on a block-skip directive, `SKIPPING → SKIPPING`
while items are examples, back to `NORMAL` exactly on a non-empty
intervening text (an empty text does not clear the state). -/
def specTrans : BlockState → ParseItem → BlockState
  | s, .text t => if !t.data.isEmpty then .normal else s
  | .normal, .ex e =>
    if dictKeyMem SKIPBLOCK e.options then .skipping else .normal
  | .skipping, .ex _ => .skipping

/-- Per the spec: which examples of the item sequence must be marked
fully skipped by the block logic (those reached in `SKIPPING`, and
those carrying the directive). -/
def specSkipFlags : BlockState → List ParseItem → List Bool
  | _, [] => []
  | s, .text t :: rest => specSkipFlags (specTrans s (.text t)) rest
  | s, .ex e :: rest =>
    (s = .skipping || dictKeyMem SKIPBLOCK e.options) ::
      specSkipFlags (specTrans s (.ex e)) rest

/-- An example is marked fully skipped: its options carry `SKIP = True`. -/
def exMarkedSkip (e : ExampleM) : Bool := dictGet e.options SKIP = some true

/-! ## The "api" discovery strategy (util.py lines 159-255,
frontend.py lines 72-82). -/

/-- A module attribute as discovery sees it: whether it is callable,
whether probing it with a bogus keyword argument raises
`DeprecationWarning` (`is_deprecated`, util.py lines 159-170), and
whether it is a module. -/
structure PyObjM where
  callable : Bool
  deprecated : Bool
  is_module : Bool
deriving DecidableEq

/-- A module namespace: its `__name__`, its optional `__all__` list,
and its resolvable attributes (`dir(module)` is modelled by the
attribute names). -/
structure PyModuleM where
  name : String
  dunder_all : Option (List String)
  attrs : List (String × PyObjM)
deriving DecidableEq

/-- `inspect.ismodule(getattr(module, n, None))` — a missing attribute
gives `None`, which is not a module. -/
def isModuleAttr (m : PyModuleM) (n : String) : Bool :=
  match List.lookup n m.attrs with
  | some o => o.is_module
  | none => false

/-- `callable(f) and is_deprecated(f)` for `f = getattr(module, n, None)`
— `callable(None)` is `False`, so a missing name lands in the
not-deprecated bucket. -/
def isCallableDeprecated (m : PyModuleM) (n : String) : Bool :=
  match List.lookup n m.attrs with
  | some o => o.callable && o.deprecated
  | none => false

/-- `list.remove(x)` guarded by `try/except ValueError`: drop the first
occurrence if any. -/
def removeFirst : List String → String → List String
  | [], _ => []
  | y :: ys, x => if y = x then ys else y :: removeFirst ys x

/-- `get_all_list(module)` (util.py lines 173-206): copy `__all__`
(empty when missing), drop the three `__future__` names, drop
module-valued attributes, and partition into
`(not_deprecated, deprecated, others)` (the `others` set is modelled
as a list of `dir` names). -/
def get_all_list (m : PyModuleM) :
    List String × List String × List String :=
  let all_list0 :=
    match m.dunder_all with
    | some l => l
    | none => []
  let all_list1 :=
    removeFirst (removeFirst (removeFirst all_list0 "absolute_import")
      "division") "print_function"
  let all_list := all_list1.filter (fun n => !isModuleAttr m n)
  let deprecated := all_list.filter (fun n => isCallableDeprecated m n)
  let not_deprecated := all_list.filter (fun n => !isCallableDeprecated m n)
  let others := (m.attrs.map Prod.fst).filter
    (fun n => !deprecated.contains n && !not_deprecated.contains n)
  (not_deprecated, deprecated, others)

/-- The loop of `get_public_objects` (util.py lines 236-253) over a
name list: skip-listed full names are dropped, resolvable names are
collected into `(items, names)`, unresolvable names (the
`AttributeError` branch) are recorded in `failures` by their full
name (the stored message is determined by it). -/
def publicLoop (m : PyModuleM) (skiplist : List String) :
    List String → (List PyObjM × List String) × List String
  | [] => (([], []), [])
  | n :: rest =>
    let full := m.name ++ "." ++ n
    if skiplist.contains full then publicLoop m skiplist rest
    else
      match List.lookup n m.attrs with
      | some o =>
        let r := publicLoop m skiplist rest
        ((o :: r.1.1, n :: r.1.2), r.2)
      | none =>
        let r := publicLoop m skiplist rest
        (r.1, full :: r.2)

/-- `get_public_objects(module, skiplist)` (util.py lines 209-255). -/
def get_public_objects (m : PyModuleM) (skiplist : List String) :
    (List PyObjM × List String) × List String :=
  publicLoop m skiplist (get_all_list m).1

/-- The "api" branch of `find_doctests` (frontend.py lines 72-82): any
failure raises `ValueError` with the joined messages; otherwise the
module itself is appended and the collected names are returned (the
item objects, used only to extract docstrings later, are dropped by
the model). -/
def find_doctests_api (m : PyModuleM) (skiplist : List String) :
    Except String (List String) :=
  let r := get_public_objects m skiplist
  if r.2 ≠ [] then .error (String.intercalate "\n" r.2)
  else .ok (r.1.2 ++ [m.name])

/-- Whether the discovery call raised. -/
def isError : Except String (List String) → Bool
  | .error _ => true
  | .ok _ => false

/-- Written from the spec's words for the "api" strategy: "read the
namespace's declared public-name list (falling back to filtering all
non-underscore-prefixed names when no explicit declaration exists)". -/
def spec_api_public_names (m : PyModuleM) : List String :=
  match m.dunder_all with
  | some l => l
  | none => (m.attrs.map Prod.fst).filter (fun n => !startsL n.data ['_'])

/-! ## Theorems about the claims. -/

/-- The checker built from an all-default configuration
(`DTChecker(DTConfig())`). -/
def defaultChecker : Checker := DTChecker.init DTConfig.default

/-- C1: the claim says the syntax-repair fallback chain terminates for
every pair of input strings.  It does not: on `want = "[a]"`,
`got = "[b]"` both strings evaluate to nothing (`a`, `b` are unbound
names), both are bracket-delimited, and `try_convert_printed_array`
leaves both unchanged, so `check_output` calls itself on identical
arguments forever.  The theorem evaluates the code at this failing
input: no recursion budget whatsoever suffices — for every `fuel` the
call is still unresolved, i.e. the Python original recurses without
end (in practice a `RecursionError`). -/
theorem check_output_repair_chain_diverges (fuel : Nat) :
    check_output defaultChecker fuel "[a]" "[b]" = CheckResult.exhausted := by
  induction fuel with
  | zero => rfl
  | succ n ih =>
    have hstep : check_output defaultChecker (n + 1) "[a]" "[b]" =
        check_output defaultChecker n "[a]" "[b]" := rfl
    exact hstep.trans ih

/-- C2: whenever the expected text contains one of the configured
random-output markers, `check_output` passes unconditionally, whatever
the actual text is (impl.py lines 312-314; the only earlier exit, exact
equality, also returns `True`). -/
theorem check_output_random_marker_passes
    (cfg : DTConfig) (fuel : Nat) (want got m : String)
    (hm : m ∈ cfg.rndm_markers) (hsub : containsL want.data m.data = true) :
    check_output (DTChecker.init cfg) (fuel + 1) want got =
      CheckResult.ret true := by
  have hany : (DTChecker.init cfg).rndm_markers.any
      (fun w => containsL want.data w.data) = true :=
    List.any_eq_true.mpr ⟨m, List.mem_cons_of_mem _ hm, hsub⟩
  by_cases heq : want.data = got.data
  · simp [check_output, heq]
  · simp [check_output, heq, hany]

/-- C2 witness: the default configuration contains `"# may vary"`, and
`check_output("42  # may vary", "17")` passes. -/
theorem check_output_random_marker_passes_witness :
    "# may vary" ∈ DTConfig.default.rndm_markers ∧
    containsL (toL "42  # may vary") (toL "# may vary") = true ∧
    check_output (DTChecker.init DTConfig.default) 1 "42  # may vary" "17" =
      CheckResult.ret true :=
  ⟨by decide, by decide,
    check_output_random_marker_passes DTConfig.default 0 "42  # may vary" "17"
      "# may vary" (by decide) (by decide)⟩

/-- C10: `DTChecker.__init__` unconditionally adds the private sentinel
`'# _ignore'` to the marker set (impl.py line 304), for every
configuration — including one with a custom `rndm_markers` set — so any
expected text containing `"# _ignore"` passes against any actual
text. -/
theorem checker_ignore_marker_unconditional
    (cfg : DTConfig) (fuel : Nat) (want got : String)
    (hsub : containsL want.data (toL "# _ignore") = true) :
    "# _ignore" ∈ (DTChecker.init cfg).rndm_markers ∧
    check_output (DTChecker.init cfg) (fuel + 1) want got =
      CheckResult.ret true := by
  refine ⟨List.mem_cons_self _ _, ?_⟩
  have hany : (DTChecker.init cfg).rndm_markers.any
      (fun w => containsL want.data w.data) = true :=
    List.any_eq_true.mpr ⟨"# _ignore", List.mem_cons_self _ _, hsub⟩
  by_cases heq : want.data = got.data
  · simp [check_output, heq]
  · simp [check_output, heq, hany]

/-- C10 witness: with a custom marker set (which does not mention
`# _ignore`), a literal `"# _ignore"` in the expected output is still
never checked. -/
theorem checker_ignore_marker_unconditional_witness :
    containsL (toL "x = 3  # _ignore") (toL "# _ignore") = true ∧
    ("# _ignore" ∈ (DTChecker.init (DTConfig.init none (some ["custom"])
        (mkRat 1 100000000) (mkRat 1 100) false none none none
        true)).rndm_markers ∧
      check_output (DTChecker.init (DTConfig.init none (some ["custom"])
        (mkRat 1 100000000) (mkRat 1 100) false none none none true)) 1
        "x = 3  # _ignore" "anything" = CheckResult.ret true) :=
  ⟨by decide,
    checker_ignore_marker_unconditional
      (DTConfig.init none (some ["custom"]) (mkRat 1 100000000)
        (mkRat 1 100) false none none none true) 0
      "x = 3  # _ignore" "anything" (by decide)⟩

/-- C6: the claim says a user-supplied `check_namespace` is stored on
the configuration and used by the checker.  In the code the assignment
`self.check_namespace = check_namespace` sits inside the
`if check_namespace is None:` block (impl.py line 167), so constructing
`DTConfig(check_namespace=ns)` leaves the attribute unset, and the
checker's read `dict(self.config.check_namespace)` (line 332) raises
`AttributeError` as soon as a comparison gets past the string-level
passes — here on the plain pair `("1", "2")`. -/
theorem dtconfig_user_check_namespace_unset (ns : Namespace) (fuel : Nat) :
    (DTConfig.init (some ns) none (mkRat 1 100000000) (mkRat 1 100) false
      none none none true).check_namespace = none ∧
    check_output (DTChecker.init (DTConfig.init (some ns) none
      (mkRat 1 100000000) (mkRat 1 100) false none none none true))
      (fuel + 1) "1" "2" = CheckResult.err :=
  ⟨rfl, rfl⟩

/-- C7: the attribute-style repr repair.  With namedtuple parsing
enabled (the default), the expected
`LeveneResult(statistic=7.58495, pvalue=0.00243)` against the plain
tuple `(7.58495, 0.00243)` passes (the regex folds the repr to the
tuple and the recursion hits exact equality).  With the flag disabled
the same comparison returns `False`; and when the extraction raises
(here: the field separator is missing, `findall` finds nothing and
`grp[0]` raises `IndexError`), it returns `False` as well. -/
theorem check_output_namedtuple_repair :
    check_output defaultChecker 2
      "LeveneResult(statistic=7.58495, pvalue=0.00243)"
      "(7.58495, 0.00243)" = CheckResult.ret true ∧
    check_output (DTChecker.init (DTConfig.init none none
        (mkRat 1 100000000) (mkRat 1 100) false none none none false)) 1
      "LeveneResult(statistic=7.58495, pvalue=0.00243)"
      "(7.58495, 0.00243)" = CheckResult.ret false ∧
    check_output defaultChecker 1
      "LeveneResult(statistic=7.58495 pvalue=0.00243)"
      "(7.58495, 0.00243)" = CheckResult.ret false :=
  ⟨by decide, by decide, by decide⟩

/-- C4 counterexample: the claim says that under the "api" strategy a
module without `__all__` falls back to all non-underscore-prefixed
names.  The code returns the empty candidate list instead
(`get_all_list`, util.py lines 180-182; its docstring says so): for a
module with one public attribute `foo` and no `__all__`, the code
yields `[]` while the spec's fallback yields `["foo"]`. -/
def moduleNoAll : PyModuleM :=
  { name := "mod", dunder_all := none,
    attrs := [("foo", ⟨false, false, false⟩)] }

/-- C4: the code's candidates differ from the spec's fallback on
`moduleNoAll`. -/
theorem get_all_list_no_dunder_all_counterexample :
    (get_all_list moduleNoAll).1 = [] ∧
    spec_api_public_names moduleNoAll = ["foo"] ∧
    (get_all_list moduleNoAll).1 ≠ spec_api_public_names moduleNoAll := by
  refine ⟨by decide, by decide, by decide⟩

/-- C4 amended: when the root namespace has no `__all__`, the "api"
strategy's candidate list from `get_all_list` is empty (both the
not-deprecated and the deprecated buckets), so api discovery tests
only the module docstring — there is no fallback to
non-underscore-prefixed names. -/
theorem get_all_list_no_dunder_all_empty (m : PyModuleM)
    (h : m.dunder_all = none) :
    (get_all_list m).1 = [] ∧ (get_all_list m).2.1 = [] := by
  simp [get_all_list, h, removeFirst]

/-- C4 witness: the amended statement evaluated on `moduleNoAll`. -/
theorem get_all_list_no_dunder_all_empty_witness :
    moduleNoAll.dunder_all = none ∧
    (get_all_list moduleNoAll).1 = [] ∧ (get_all_list moduleNoAll).2.1 = [] :=
  ⟨by decide, get_all_list_no_dunder_all_empty moduleNoAll (by decide)⟩

/-- Helper for C5: a declared, not skip-listed, unresolvable name lands
in the failure list of the `get_public_objects` loop. -/
theorem publicLoop_mem_failures (m : PyModuleM) (skiplist : List String)
    (n : String) :
    ∀ l : List String, n ∈ l →
      skiplist.contains (m.name ++ "." ++ n) = false →
      List.lookup n m.attrs = none →
      (m.name ++ "." ++ n) ∈ (publicLoop m skiplist l).2 := by
  intro l
  induction l with
  | nil => intro h; exact absurd h (List.not_mem_nil n)
  | cons x rest ih =>
    intro hmem hskip hlook
    rcases List.mem_cons.mp hmem with hx | hrest
    · subst hx
      simp only [publicLoop, hskip, Bool.false_eq_true, if_false, hlook]
      exact List.mem_cons_self _ _
    · simp only [publicLoop]
      by_cases hs : skiplist.contains (m.name ++ "." ++ x) = true
      · simp only [hs, if_true]
        exact ih hrest hskip hlook
      · simp only [Bool.not_eq_true] at hs
        simp only [hs, Bool.false_eq_true, if_false]
        cases hlx : List.lookup x m.attrs with
        | some o => exact ih hrest hskip hlook
        | none => exact List.mem_cons_of_mem _ (ih hrest hskip hlook)

/-- Helper for C5: every entry of the failure list comes from a name
whose attribute lookup failed. -/
theorem publicLoop_failures_unresolvable (m : PyModuleM)
    (skiplist : List String) :
    ∀ (l : List String) (full : String),
      full ∈ (publicLoop m skiplist l).2 →
      ∃ n', full = m.name ++ "." ++ n' ∧ n' ∈ l ∧
        List.lookup n' m.attrs = none := by
  intro l
  induction l with
  | nil => intro full h; exact absurd h (List.not_mem_nil full)
  | cons x rest ih =>
    intro full h
    simp only [publicLoop] at h
    by_cases hs : skiplist.contains (m.name ++ "." ++ x) = true
    · simp only [hs, if_true] at h
      obtain ⟨n', h1, h2, h3⟩ := ih full h
      exact ⟨n', h1, List.mem_cons_of_mem _ h2, h3⟩
    · simp only [Bool.not_eq_true] at hs
      simp only [hs, Bool.false_eq_true, if_false] at h
      cases hlx : List.lookup x m.attrs with
      | some o =>
        simp only [hlx] at h
        obtain ⟨n', h1, h2, h3⟩ := ih full h
        exact ⟨n', h1, List.mem_cons_of_mem _ h2, h3⟩
      | none =>
        simp only [hlx] at h
        rcases List.mem_cons.mp h with hfull | h'
        · exact ⟨x, hfull, List.mem_cons_self _ _, hlx⟩
        · obtain ⟨n', h1, h2, h3⟩ := ih full h'
          exact ⟨n', h1, List.mem_cons_of_mem _ h2, h3⟩

/-- C5: under the "api" strategy, a name of the declared public list
that is not skip-listed and does not resolve as an attribute makes
discovery raise `ValueError` (frontend.py lines 78-80) rather than
being silently dropped; and a resolvable name is never recorded as a
failure. -/
theorem api_discovery_missing_name_raises (m : PyModuleM)
    (skiplist : List String) (n : String) :
    (n ∈ (get_all_list m).1 →
      skiplist.contains (m.name ++ "." ++ n) = false →
      List.lookup n m.attrs = none →
      isError (find_doctests_api m skiplist) = true) ∧
    (∀ o : PyObjM, List.lookup n m.attrs = some o →
      (m.name ++ "." ++ n) ∉ (get_public_objects m skiplist).2) := by
  constructor
  · intro hall hskip hlook
    have hmem : (m.name ++ "." ++ n) ∈ (get_public_objects m skiplist).2 :=
      publicLoop_mem_failures m skiplist n _ hall hskip hlook
    have hne : (get_public_objects m skiplist).2 ≠ [] :=
      List.ne_nil_of_mem hmem
    simp only [find_doctests_api]
    rw [if_pos hne]
    rfl
  · intro o hlook hmem
    obtain ⟨n', h1, _, h3⟩ :=
      publicLoop_failures_unresolvable m skiplist _ _ hmem
    have hdata : (m.name ++ "." ++ n).data = (m.name ++ "." ++ n').data := by
      rw [h1]
    simp only [String.data_append] at hdata
    have : n.data = n'.data := List.append_cancel_left hdata
    have hnn : n = n' := by
      cases n; cases n'; exact congrArg String.mk this
    rw [hnn, h3] at hlook
    exact Option.noConfusion hlook

/-- C5 witness: `__all__ = ['A', 'B']` with only `A` present: discovery
raises, and `A` is not reported as a failure. -/
def moduleAB : PyModuleM :=
  { name := "mod", dunder_all := some ["A", "B"],
    attrs := [("A", ⟨false, false, false⟩)] }

/-- C5 witness theorem. -/
theorem api_discovery_missing_name_raises_witness :
    ("B" ∈ (get_all_list moduleAB).1 ∧
      List.lookup "B" moduleAB.attrs = none ∧
      isError (find_doctests_api moduleAB []) = true) ∧
    (List.lookup "A" moduleAB.attrs = some ⟨false, false, false⟩ ∧
      ("mod" ++ "." ++ "A") ∉ (get_public_objects moduleAB []).2) :=
  ⟨⟨by decide, by decide,
    (api_discovery_missing_name_raises moduleAB [] "B").1
      (by decide) (by decide) (by decide)⟩,
   ⟨by decide,
    (api_discovery_missing_name_raises moduleAB [] "A").2
      ⟨false, false, false⟩ (by decide)⟩⟩

/-- A numeric scalar value (int, float, nan or infinity). -/
def isNumScalarV : PyVal → Bool
  | .int _ => true
  | .float _ => true
  | .nan => true
  | .inf _ => true
  | _ => false

/-- Helper for C8: `_do_check(None, g)` is never `True` for a numeric
`g` — under strict checking the dtypes (`object` vs numeric) differ,
otherwise `None == g` is `False` and `np.allclose` raises on `None`. -/
theorem doCheck_pynone_left_ne_true (fuel : Nat) (strict : Bool)
    (atol rtol : ℚ) (g : PyVal) (hg : isNumScalarV g = true) :
    doCheckV fuel strict atol rtol PyVal.pynone g ≠ some true := by
  cases fuel with
  | zero =>
    cases strict <;> cases g <;>
      simp_all [doCheckV, asarrayDtype, pyEqV, npCloseV, isNumScalarV]
  | succ n =>
    cases strict <;> cases g <;>
      simp_all [doCheckV, asarrayDtype, pyEqV, npCloseV, isNumScalarV,
        asScalar, elemsOf]

/-- Helper for C8, the mirror-image of `doCheck_pynone_left_ne_true`. -/
theorem doCheck_pynone_right_ne_true (fuel : Nat) (strict : Bool)
    (atol rtol : ℚ) (w : PyVal) (hw : isNumScalarV w = true) :
    doCheckV fuel strict atol rtol w PyVal.pynone ≠ some true := by
  cases fuel with
  | zero =>
    cases strict <;> cases w <;>
      simp_all [doCheckV, asarrayDtype, pyEqV, npCloseV, isNumScalarV]
  | succ n =>
    cases strict <;> cases w <;>
      simp_all [doCheckV, asarrayDtype, pyEqV, npCloseV, isNumScalarV,
        asScalar, elemsOf]

/-- Helper for C8: the `zip_longest` fallback on two numeric sequences
of different lengths is `False`: the `None` padding meets a numeric
element and that pair never checks. -/
theorem zipLongest_numeric_length_mismatch (fuel : Nat) (strict : Bool)
    (atol rtol : ℚ) :
    ∀ ws gs : List PyVal, ws.all isNumScalarV = true →
      gs.all isNumScalarV = true → ws.length ≠ gs.length →
      ((zipLongestL ws gs).all
        (fun p => doCheckV fuel strict atol rtol p.1 p.2 = some true)) =
        false := by
  intro ws
  induction ws with
  | nil =>
    intro gs _ hg hlen
    cases gs with
    | nil => exact absurd rfl hlen
    | cons g gs' =>
      have hgnum : isNumScalarV g = true := by
        simp only [List.all_cons, Bool.and_eq_true] at hg
        exact hg.1
      have hne := doCheck_pynone_left_ne_true fuel strict atol rtol g hgnum
      simp only [zipLongestL, List.map_cons, List.all_cons,
        decide_eq_false hne, Bool.false_and]
  | cons w ws' ih =>
    intro gs hw hg hlen
    have hwnum : isNumScalarV w = true := by
      simp only [List.all_cons, Bool.and_eq_true] at hw
      exact hw.1
    have hwrest : ws'.all isNumScalarV = true := by
      simp only [List.all_cons, Bool.and_eq_true] at hw
      exact hw.2
    cases gs with
    | nil =>
      have hne := doCheck_pynone_right_ne_true fuel strict atol rtol w hwnum
      simp only [zipLongestL, List.all_cons, decide_eq_false hne,
        Bool.false_and]
    | cons g gs' =>
      have hgrest : gs'.all isNumScalarV = true := by
        simp only [List.all_cons, Bool.and_eq_true] at hg
        exact hg.2
      have hlen' : ws'.length ≠ gs'.length := by
        intro h
        exact hlen (by simp [List.length_cons, h])
      have hrest := ih gs' hwrest hgrest hlen'
      simp only [zipLongestL, List.all_cons, hrest, Bool.and_false]

/-- C8 counterexample: the claim's general part says the `zip_longest`
padding makes every length-mismatched lockstep comparison fail.  It
does not: `None` padding compares equal to a trailing `None` element,
so `check_output("[None]", "[None, None]")` returns `True` in spite of
the length mismatch (the lists evaluate, `np.allclose` raises on the
object dtype, and both lockstep pairs are `None == None`). -/
theorem check_output_length_mismatch_counterexample :
    check_output defaultChecker 1 "[None]" "[None, None]" =
      CheckResult.ret true := by decide

/-- C8 amended: `check_output("[1, 2, 3, 4]", "[1, 2, 3]")` returns
`False`; and in general, when the final numeric comparison falls back
to the element-wise lockstep comparison of two sequences of different
lengths whose elements are numeric scalars, the `None` padding of the
absent trailing elements makes the comparison return `False` rather
than silently truncate.  (Without the numeric-elements condition this
fails: see the counterexample, where a trailing `None` element equals
the padding.) -/
theorem check_output_length_mismatch_fails :
    check_output defaultChecker 1 "[1, 2, 3, 4]" "[1, 2, 3]" =
      CheckResult.ret false ∧
    ∀ (fuel : Nat) (strict : Bool) (atol rtol : ℚ) (ws gs : List PyVal),
      ws.all isNumScalarV = true → gs.all isNumScalarV = true →
      ws.length ≠ gs.length →
      ((zipLongestL ws gs).all
        (fun p => doCheckV fuel strict atol rtol p.1 p.2 = some true)) =
        false :=
  ⟨by decide, fun fuel strict atol rtol =>
    zipLongest_numeric_length_mismatch fuel strict atol rtol⟩

/-- C8 witness: the amended general statement applied to the numeric
sequences `[1]` and `[1, 2]`. -/
theorem check_output_length_mismatch_fails_witness :
    ([PyVal.int 1].all isNumScalarV = true ∧
      [PyVal.int 1, PyVal.int 2].all isNumScalarV = true ∧
      [PyVal.int 1].length ≠ [PyVal.int 1, PyVal.int 2].length) ∧
    ((zipLongestL [PyVal.int 1] [PyVal.int 1, PyVal.int 2]).all
      (fun p => doCheckV 3 false (mkRat 1 100000000) (mkRat 1 100)
        p.1 p.2 = some true)) = false :=
  ⟨⟨by decide, by decide, by decide⟩,
    check_output_length_mismatch_fails.2 3 false (mkRat 1 100000000)
      (mkRat 1 100) [PyVal.int 1] [PyVal.int 1, PyVal.int 2]
      (by decide) (by decide) (by decide)⟩

/-- Helper for C9: `find?` over the entry-replacing map, when the key
is present. -/
theorem dictFind_map_set (k : Nat) :
    ∀ d : List (Nat × Bool), dictKeyMem k d = true →
      (d.map (fun p => if p.1 = k then (k, true) else p)).find?
        (fun p => p.1 = k) = some (k, true) := by
  intro d
  induction d with
  | nil => intro h; simp [dictKeyMem] at h
  | cons p rest ih =>
    intro h
    by_cases hp : p.1 = k
    · simp [List.find?, hp]
    · have hr : dictKeyMem k rest = true := by
        simp only [dictKeyMem, List.any_cons, Bool.or_eq_true] at h
        rcases h with h | h
        · exact absurd (of_decide_eq_true h) hp
        · simpa [dictKeyMem] using h
      simp only [List.map_cons, if_neg hp]
      rw [List.find?]
      simp only [decide_eq_false hp]
      exact ih hr

/-- Helper for C9: `find?` over the appended fresh entry, when the key
is absent. -/
theorem dictFind_append_set (k : Nat) :
    ∀ d : List (Nat × Bool), dictKeyMem k d = false →
      (d ++ [(k, true)]).find? (fun p => p.1 = k) = some (k, true) := by
  intro d
  induction d with
  | nil => simp [List.find?]
  | cons p rest ih =>
    intro h
    simp only [dictKeyMem, List.any_cons, Bool.or_eq_false_iff] at h
    have hp : ¬ (p.1 = k) := by
      intro hc
      simpa [hc] using h.1
    simp only [List.cons_append]
    rw [List.find?]
    simp only [decide_eq_false hp]
    exact ih (by simpa [dictKeyMem] using h.2)

/-- Helper for C9: a key set to `True` is read back as `True`. -/
theorem dictGet_dictSet_self (d : List (Nat × Bool)) (k : Nat) :
    dictGet (dictSet d k true) k = some true := by
  by_cases h : dictKeyMem k d = true
  · simp only [dictSet, h, if_true, dictGet, dictFind_map_set k d h,
      Option.map_some']
  · have h' : dictKeyMem k d = false := by simpa using h
    simp only [dictSet, h', Bool.false_eq_true, if_false, dictGet,
      dictFind_append_set k d h', Option.map_some']

/-- Helper for C9: the threaded flag after an example is set exactly
when the example carried the directive key or the flag was already
set. -/
theorem processExample_keep (cfg : DTConfig) (keep : Bool) (e : ExampleM) :
    (processExample cfg keep e).2 = (dictKeyMem SKIPBLOCK e.options || keep) := by
  cases hk : dictKeyMem SKIPBLOCK e.options <;> cases keep <;>
    simp [processExample, hk]

/-- Helper for C9: an example processed with the directive key present
or the flag set comes out marked `SKIP`. -/
theorem processExample_marked (cfg : DTConfig) (keep : Bool) (e : ExampleM)
    (h : (dictKeyMem SKIPBLOCK e.options || keep) = true) :
    exMarkedSkip (processExample cfg keep e).1 = true := by
  simp only [processExample, h, if_true, exMarkedSkip]
  split <;> split <;> split <;> simp [dictGet_dictSet_self]

/-- C9: the block-skip behaviour of `get_examples` follows the spec's
two-state machine.  The machine starts in `NORMAL` (the code's flag
starts `False`); the flag threaded by the code equals the state of the
spec machine after folding its transition over the items (so the state
goes to `SKIPPING` exactly on a block-skip directive, stays there over
examples, and returns to `NORMAL` exactly on a non-empty text passage,
an empty text clearing nothing); and every example reached in
`SKIPPING` or carrying the directive is emitted marked `SKIP`. -/
theorem get_examples_blockskip_machine (cfg : DTConfig) :
    (∀ items, get_examples cfg items =
      (getExamplesAux cfg (stateBool BlockState.normal) items).1) ∧
    ∀ (s : BlockState) (items : List ParseItem),
      (getExamplesAux cfg (stateBool s) items).2 =
        stateBool (items.foldl specTrans s) ∧
      ((specSkipFlags s items).zip
        ((getExamplesAux cfg (stateBool s) items).1.map exMarkedSkip)).all
        (fun p => !p.1 || p.2) = true := by
  refine ⟨fun items => rfl, ?_⟩
  intro s items
  induction items generalizing s with
  | nil => exact ⟨rfl, rfl⟩
  | cons it rest ih =>
    cases it with
    | text t =>
      have hflag : (if !t.data.isEmpty then false else stateBool s) =
          stateBool (specTrans s (ParseItem.text t)) := by
        by_cases ht : t.data.isEmpty <;> simp [specTrans, ht, stateBool]
      constructor
      · simp only [getExamplesAux, List.foldl_cons]
        rw [hflag]
        exact (ih (specTrans s (ParseItem.text t))).1
      · simp only [getExamplesAux, specSkipFlags]
        rw [hflag]
        exact (ih (specTrans s (ParseItem.text t))).2
    | ex e =>
      have hkeep : (processExample cfg (stateBool s) e).2 =
          stateBool (specTrans s (ParseItem.ex e)) := by
        rw [processExample_keep]
        cases s <;> cases hk : dictKeyMem SKIPBLOCK e.options <;>
          simp [specTrans, stateBool, hk]
      constructor
      · simp only [getExamplesAux, List.foldl_cons]
        rw [hkeep]
        exact (ih (specTrans s (ParseItem.ex e))).1
      · simp only [getExamplesAux, specSkipFlags, List.map_cons,
          List.zip_cons_cons, List.all_cons]
        rw [hkeep]
        rw [Bool.and_eq_true]
        refine ⟨?_, (ih (specTrans s (ParseItem.ex e))).2⟩
        by_cases hflag :
            (decide (s = BlockState.skipping) ||
              dictKeyMem SKIPBLOCK e.options) = true
        · have hbs : (dictKeyMem SKIPBLOCK e.options || stateBool s) = true := by
            cases s <;> simp_all [stateBool]
          simp [hflag, processExample_marked cfg (stateBool s) e hbs]
        · have hf : (decide (s = BlockState.skipping) ||
              dictKeyMem SKIPBLOCK e.options) = false := by
            simpa using hflag
          simp [hf]

/-- Bridge: `qAdd` is addition on `ℚ`. -/
theorem qAdd_eq (a b : ℚ) : qAdd a b = a + b := by
  have ha : (a.den : ℚ) ≠ 0 := Nat.cast_ne_zero.mpr a.den_nz
  have hb : (b.den : ℚ) ≠ 0 := Nat.cast_ne_zero.mpr b.den_nz
  rw [qAdd, Rat.mkRat_eq_divInt, Rat.divInt_eq_div]
  push_cast
  conv_rhs => rw [← Rat.num_div_den a, ← Rat.num_div_den b]
  rw [div_add_div _ _ ha hb]
  ring_nf

/-- Bridge: `qMul` is multiplication on `ℚ`. -/
theorem qMul_eq (a b : ℚ) : qMul a b = a * b := by
  rw [qMul, Rat.mkRat_eq_divInt, Rat.divInt_eq_div]
  push_cast
  conv_rhs => rw [← Rat.num_div_den a, ← Rat.num_div_den b]
  rw [div_mul_div_comm]

/-- Bridge: `qAbs` is the absolute value on `ℚ`. -/
theorem qAbs_eq (a : ℚ) : qAbs a = |a| := by
  have hden : (0 : ℚ) ≤ (a.den : ℚ) := by positivity
  rw [qAbs, Rat.mkRat_eq_divInt, Rat.divInt_eq_div, Int.ofNat_eq_natCast,
    Int.cast_natCast, Int.cast_natAbs]
  push_cast
  rw [← abs_of_nonneg hden, ← abs_div, Rat.num_div_den]

/-- `qAbs` is nonnegative. -/
theorem qAbs_nonneg (a : ℚ) : 0 ≤ qAbs a := by
  rw [qAbs_eq]
  exact abs_nonneg a

/-- Scalar closeness is monotone in both tolerances (`|b| ≥ 0`). -/
theorem closeScal_mono (atol rtol atol' rtol' : ℚ) (ha : atol ≤ atol')
    (hr : rtol ≤ rtol') (x y : NScal) (h : closeScal atol rtol x y = true) :
    closeScal atol' rtol' x y = true := by
  cases x with
  | fin a =>
    cases y with
    | fin b =>
      simp only [closeScal, decide_eq_true_eq] at h ⊢
      refine le_trans h ?_
      rw [qAdd_eq, qAdd_eq, qMul_eq, qMul_eq]
      exact add_le_add ha (mul_le_mul_of_nonneg_right hr (qAbs_nonneg b))
    | nan => simpa [closeScal] using h
    | inf p => simpa [closeScal] using h
  | nan => cases y <;> simpa [closeScal] using h
  | inf p => cases y <;> simpa [closeScal] using h

/-- `optAll` is `none` exactly when the list holds a `none`. -/
theorem optAll_eq_none_iff (l : List (Option Bool)) :
    optAll l = none ↔ none ∈ l := by
  induction l with
  | nil => simp [optAll]
  | cons o t ih =>
    have hstep : optAll (o :: t) =
        (match o, optAll t with
         | some x, some y => some (x && y)
         | _, _ => none) := rfl
    rw [hstep]
    cases o with
    | none => simp
    | some x =>
      cases ht : optAll t with
      | none => simp [← ih, ht]
      | some y => simp [← ih, ht]

/-- `optAll` is `some true` exactly when every entry is `some true`. -/
theorem optAll_eq_some_true_iff (l : List (Option Bool)) :
    optAll l = some true ↔ ∀ o ∈ l, o = some true := by
  induction l with
  | nil => simp [optAll]
  | cons o t ih =>
    have hstep : optAll (o :: t) =
        (match o, optAll t with
         | some x, some y => some (x && y)
         | _, _ => none) := rfl
    rw [hstep]
    cases o with
    | none => simp
    | some x =>
      cases ht : optAll t with
      | none =>
        constructor
        · intro hcontra
          exact Option.noConfusion hcontra
        · intro hall
          have hn : none ∈ t := (optAll_eq_none_iff t).mp ht
          exact absurd (hall none (List.mem_cons_of_mem _ hn)) (by simp)
      | some y =>
        cases x <;> cases y <;> simp_all [← ih, ht]

/-- Error-stability and truth-monotonicity of `optAll` over two mapped
families that are pointwise related that way. -/
theorem optAll_map_rel {α : Type} (f f' : α → Option Bool) (ys : List α)
    (hp : ∀ y ∈ ys, (f' y = none ↔ f y = none) ∧
      (f y = some true → f' y = some true)) :
    (optAll (ys.map f') = none ↔ optAll (ys.map f) = none) ∧
    (optAll (ys.map f) = some true → optAll (ys.map f') = some true) := by
  constructor
  · rw [optAll_eq_none_iff, optAll_eq_none_iff]
    constructor
    · intro h
      obtain ⟨y, hy, hfy⟩ := List.mem_map.mp h
      exact List.mem_map.mpr ⟨y, hy, (hp y hy).1.mp hfy⟩
    · intro h
      obtain ⟨y, hy, hfy⟩ := List.mem_map.mp h
      exact List.mem_map.mpr ⟨y, hy, (hp y hy).1.mpr hfy⟩
  · intro h
    rw [optAll_eq_some_true_iff] at h ⊢
    intro o ho
    obtain ⟨y, hy, rfl⟩ := List.mem_map.mp ho
    exact (hp y hy).2 (h _ (List.mem_map.mpr ⟨y, hy, rfl⟩))

/-- `np.allclose` on the fragment: whether it raises does not depend on
the tolerances, and a `True` result survives enlarging them. -/
theorem npCloseV_mono (atol rtol atol' rtol' : ℚ) (ha : atol ≤ atol')
    (hr : rtol ≤ rtol') :
    ∀ (fuel : Nat) (a b : PyVal),
      (npCloseV fuel atol' rtol' a b = none ↔
        npCloseV fuel atol rtol a b = none) ∧
      (npCloseV fuel atol rtol a b = some true →
        npCloseV fuel atol' rtol' a b = some true) := by
  intro fuel
  induction fuel with
  | zero => exact fun a b => ⟨Iff.rfl, fun h => Option.noConfusion h⟩
  | succ fuel ih =>
    intro a b
    cases hsa : asScalar a with
    | some x =>
      cases hsb : asScalar b with
      | some y =>
        simp only [npCloseV, hsa, hsb]
        refine ⟨by simp, ?_⟩
        intro h
        simp only [Option.some.injEq] at h ⊢
        exact closeScal_mono atol rtol atol' rtol' ha hr x y h
      | none =>
        simp only [npCloseV, hsa, hsb]
        cases heb : elemsOf b with
        | some ys =>
          simp only [heb]
          exact optAll_map_rel _ _ ys (fun y _ => ih a y)
        | none =>
          simp only [heb]
          exact ⟨by simp, fun h => Option.noConfusion h⟩
    | none =>
      cases hsb : asScalar b with
      | some y =>
        simp only [npCloseV, hsa, hsb]
        cases hea : elemsOf a with
        | some xs =>
          simp only [hea]
          exact optAll_map_rel _ _ xs (fun x _ => ih x b)
        | none =>
          simp only [hea]
          exact ⟨by simp, fun h => Option.noConfusion h⟩
      | none =>
        simp only [npCloseV, hsa, hsb]
        cases hea : elemsOf a with
        | none =>
          simp only [hea]
          exact ⟨by simp, fun h => Option.noConfusion h⟩
        | some xs =>
          cases heb : elemsOf b with
          | none =>
            simp only [hea, heb]
            exact ⟨by simp, fun h => Option.noConfusion h⟩
          | some ys =>
            simp only [hea, heb]
            by_cases hlen : xs.length = ys.length
            · simp only [hlen, if_true]
              exact optAll_map_rel _ _ (xs.zip ys) (fun p _ => ih p.1 p.2)
            · simp only [if_neg hlen]
              rcases xs with _ | ⟨x, _ | ⟨x2, xs2⟩⟩ <;>
                rcases ys with _ | ⟨y, _ | ⟨y2, ys2⟩⟩ <;>
                first
                  | exact ⟨by simp, fun h => Option.noConfusion h⟩
                  | exact optAll_map_rel _ _ _ (fun z _ => ih _ _)

/-- `_do_check`: raising is tolerance-independent, truth is monotone
(the dtype pass and the literal equality do not read the tolerances;
`np.allclose` obeys `npCloseV_mono`). -/
theorem doCheckV_mono (atol rtol atol' rtol' : ℚ) (ha : atol ≤ atol')
    (hr : rtol ≤ rtol') (fuel : Nat) (strict : Bool) (w g : PyVal) :
    (doCheckV fuel strict atol' rtol' w g = none ↔
      doCheckV fuel strict atol rtol w g = none) ∧
    (doCheckV fuel strict atol rtol w g = some true →
      doCheckV fuel strict atol' rtol' w g = some true) := by
  have hnp := npCloseV_mono atol rtol atol' rtol' ha hr fuel w g
  cases strict with
  | false =>
    simp only [doCheckV, Bool.false_eq_true, if_false]
    by_cases heq : pyEqV fuel w g = true
    · simp [heq]
    · have heq' : pyEqV fuel w g = false := by simpa using heq
      simp only [heq', Bool.false_eq_true, if_false]
      exact hnp
  | true =>
    simp only [doCheckV, if_true]
    cases hdw : asarrayDtype fuel w with
    | none => simp
    | some dw =>
      cases hdg : asarrayDtype fuel g with
      | none => simp
      | some dg =>
        by_cases hne : dw ≠ dg
        · simp [hne]
        · simp only [hne, if_false]
          by_cases heq : pyEqV fuel w g = true
          · simp [heq]
          · have heq' : pyEqV fuel w g = false := by simpa using heq
            simp only [heq', Bool.false_eq_true, if_false]
            exact hnp

/-- The whole final comparison (kind check, `_do_check`, `zip_longest`
fallback) is monotone in the tolerances. -/
theorem finalCompare_mono (atol rtol atol' rtol' : ℚ) (ha : atol ≤ atol')
    (hr : rtol ≤ rtol') (fuel : Nat) (strict : Bool) (w g : PyVal)
    (h : finalCompare fuel strict atol rtol w g = true) :
    finalCompare fuel strict atol' rtol' w g = true := by
  simp only [finalCompare] at h ⊢
  by_cases hkind : (isLTv w && isLTv g && kindClash w g) = true
  · rw [if_pos hkind] at h
    exact absurd h (by simp)
  · rw [if_neg hkind] at h ⊢
    cases hdc : doCheckV fuel strict atol rtol w g with
    | some b =>
      rw [hdc] at h
      have hb : b = true := h
      rw [hb] at hdc
      have := (doCheckV_mono atol rtol atol' rtol' ha hr fuel strict w g).2 hdc
      rw [this]
    | none =>
      rw [hdc] at h
      have hdc' : doCheckV fuel strict atol' rtol' w g = none :=
        (doCheckV_mono atol rtol atol' rtol' ha hr fuel strict w g).1.mpr hdc
      rw [hdc']
      cases hew : elemsOf w with
      | none =>
        rw [hew] at h
        simp at h
      | some ws =>
        rw [hew] at h
        cases heg : elemsOf g with
        | none =>
          rw [heg] at h
          simp at h
        | some gs =>
          rw [heg] at h
          simp only [List.all_eq_true, decide_eq_true_eq] at h ⊢
          intro p hp
          exact (doCheckV_mono atol rtol atol' rtol' ha hr fuel strict
            p.1 p.2).2 (h p hp)

/-- The heart of C3: `check_output` on checker states that agree on
everything the checker reads except the two tolerances.  Every branch
condition of the checker is tolerance-independent, the repair
recursions rewrite the strings identically, and the final numeric
comparison is monotone, so a `True` verdict survives enlarging the
tolerances. -/
theorem check_output_mono_core (c c' : DTConfig) (a r a' r' : ℚ)
    (mks : List String)
    (hns : c.check_namespace = c'.check_namespace)
    (hst : c.strict_check = c'.strict_check)
    (hpn : c.parse_namedtuples = c'.parse_namedtuples)
    (ha : a ≤ a') (hr : r ≤ r') :
    ∀ (fuel : Nat) (want got : String),
      check_output ⟨c, a, r, mks⟩ fuel want got = CheckResult.ret true →
      check_output ⟨c', a', r', mks⟩ fuel want got = CheckResult.ret true := by
  intro fuel
  induction fuel with
  | zero =>
    intro want got h
    exact absurd h (by simp [check_output])
  | succ fuel ih =>
    intro want got h
    simp only [check_output] at h ⊢
    by_cases h1 : want.data = got.data
    · rw [if_pos h1]
    · rw [if_neg h1] at h ⊢
      by_cases h2 : mks.any (fun w => containsL want.data w.data) = true
      · rw [if_pos h2]
      · rw [if_neg h2] at h ⊢
        by_cases h3 : objPatternSearch got.data = true
        · rw [if_pos h3]
        · rw [if_neg h3] at h ⊢
          by_cases h4 : (lstripL want.data).head? = some '#'
          · rw [if_pos h4]
          · rw [if_neg h4] at h ⊢
            by_cases h5 : vanillaCheck want got = true
            · rw [if_pos h5]
            · rw [if_neg h5] at h ⊢
              rw [← hns]
              cases hcn : c.check_namespace with
              | none =>
                simp only [hcn] at h
                exact absurd h (by simp)
              | some ns =>
                simp only [hcn] at h ⊢
                cases hev1 : pyEvalStr ns want with
                | some a_want =>
                  cases hev2 : pyEvalStr ns got with
                  | some a_got =>
                    simp only [hev1, hev2] at h ⊢
                    have hfc : finalCompare
                        (want.data.length + got.data.length + 2)
                        c.strict_check a r a_want a_got = true := by
                      simpa using h
                    rw [← hst]
                    have hfc' := finalCompare_mono a r a' r' ha hr
                      (want.data.length + got.data.length + 2)
                      c.strict_check a_want a_got hfc
                    rw [hfc']
                  | none =>
                    simp only [hev1, hev2] at h ⊢
                    by_cases hc1 : (startsL (stripL want.data) ['['] &&
                        endsL (stripL want.data) [']'] &&
                        startsL (stripL got.data) ['['] &&
                        endsL (stripL got.data) [']']) = true
                    · rw [if_pos hc1] at h ⊢
                      exact ih _ _ h
                    · rw [if_neg hc1] at h ⊢
                      by_cases hc2 : (startsL (stripL want.data)
                          (toL "array([") &&
                          containsL (stripL want.data) (toL "...") &&
                          startsL (stripL got.data) (toL "array([") &&
                          containsL (stripL got.data) (toL "...")) = true
                      · rw [if_pos hc2] at h ⊢
                        by_cases hc3 : (!(try_split_shape_from_abbrv
                            (String.mk (stripL got.data))).2.data.isEmpty) =
                            true
                        · rw [if_pos hc3] at h ⊢
                          exact ih _ _ h
                        · rw [if_neg hc3] at h ⊢
                          exact ih _ _ h
                      · rw [if_neg hc2] at h ⊢
                        by_cases hc4 : (has_masked want || has_masked got) =
                            true
                        · rw [if_pos hc4] at h ⊢
                          exact ih _ _ h
                        · rw [if_neg hc4] at h ⊢
                          by_cases hc5 : (!containsL want.data ['='] &&
                              !containsL got.data ['=']) = true
                          · rw [if_pos hc5] at h
                            exact absurd h (by simp)
                          · rw [if_neg hc5] at h ⊢
                            rw [← hpn]
                            by_cases hc6 : (!c.parse_namedtuples) = true
                            · rw [if_pos hc6] at h
                              exact absurd h (by simp)
                            · rw [if_neg hc6] at h ⊢
                              cases hnt1 : try_convert_namedtuple got with
                              | some got_again =>
                                cases hnt2 : try_convert_namedtuple want with
                                | some want_again =>
                                  simp only [hnt1, hnt2] at h ⊢
                                  exact ih _ _ h
                                | none =>
                                  simp only [hnt1, hnt2] at h
                                  exact absurd h (by simp)
                              | none =>
                                simp only [hnt1] at h
                                exact absurd h (by simp)
                | none =>
                  cases hev2 : pyEvalStr ns got with
                  | some a_got =>
                    simp only [hev1, hev2] at h ⊢
                    by_cases hc1 : (startsL (stripL want.data) ['['] &&
                        endsL (stripL want.data) [']'] &&
                        startsL (stripL got.data) ['['] &&
                        endsL (stripL got.data) [']']) = true
                    · rw [if_pos hc1] at h ⊢
                      exact ih _ _ h
                    · rw [if_neg hc1] at h ⊢
                      by_cases hc2 : (startsL (stripL want.data)
                          (toL "array([") &&
                          containsL (stripL want.data) (toL "...") &&
                          startsL (stripL got.data) (toL "array([") &&
                          containsL (stripL got.data) (toL "...")) = true
                      · rw [if_pos hc2] at h ⊢
                        by_cases hc3 : (!(try_split_shape_from_abbrv
                            (String.mk (stripL got.data))).2.data.isEmpty) =
                            true
                        · rw [if_pos hc3] at h ⊢
                          exact ih _ _ h
                        · rw [if_neg hc3] at h ⊢
                          exact ih _ _ h
                      · rw [if_neg hc2] at h ⊢
                        by_cases hc4 : (has_masked want || has_masked got) =
                            true
                        · rw [if_pos hc4] at h ⊢
                          exact ih _ _ h
                        · rw [if_neg hc4] at h ⊢
                          by_cases hc5 : (!containsL want.data ['='] &&
                              !containsL got.data ['=']) = true
                          · rw [if_pos hc5] at h
                            exact absurd h (by simp)
                          · rw [if_neg hc5] at h ⊢
                            rw [← hpn]
                            by_cases hc6 : (!c.parse_namedtuples) = true
                            · rw [if_pos hc6] at h
                              exact absurd h (by simp)
                            · rw [if_neg hc6] at h ⊢
                              cases hnt1 : try_convert_namedtuple got with
                              | some got_again =>
                                cases hnt2 : try_convert_namedtuple want with
                                | some want_again =>
                                  simp only [hnt1, hnt2] at h ⊢
                                  exact ih _ _ h
                                | none =>
                                  simp only [hnt1, hnt2] at h
                                  exact absurd h (by simp)
                              | none =>
                                simp only [hnt1] at h
                                exact absurd h (by simp)
                  | none =>
                    simp only [hev1, hev2] at h ⊢
                    by_cases hc1 : (startsL (stripL want.data) ['['] &&
                        endsL (stripL want.data) [']'] &&
                        startsL (stripL got.data) ['['] &&
                        endsL (stripL got.data) [']']) = true
                    · rw [if_pos hc1] at h ⊢
                      exact ih _ _ h
                    · rw [if_neg hc1] at h ⊢
                      by_cases hc2 : (startsL (stripL want.data)
                          (toL "array([") &&
                          containsL (stripL want.data) (toL "...") &&
                          startsL (stripL got.data) (toL "array([") &&
                          containsL (stripL got.data) (toL "...")) = true
                      · rw [if_pos hc2] at h ⊢
                        by_cases hc3 : (!(try_split_shape_from_abbrv
                            (String.mk (stripL got.data))).2.data.isEmpty) =
                            true
                        · rw [if_pos hc3] at h ⊢
                          exact ih _ _ h
                        · rw [if_neg hc3] at h ⊢
                          exact ih _ _ h
                      · rw [if_neg hc2] at h ⊢
                        by_cases hc4 : (has_masked want || has_masked got) =
                            true
                        · rw [if_pos hc4] at h ⊢
                          exact ih _ _ h
                        · rw [if_neg hc4] at h ⊢
                          by_cases hc5 : (!containsL want.data ['='] &&
                              !containsL got.data ['=']) = true
                          · rw [if_pos hc5] at h
                            exact absurd h (by simp)
                          · rw [if_neg hc5] at h ⊢
                            rw [← hpn]
                            by_cases hc6 : (!c.parse_namedtuples) = true
                            · rw [if_pos hc6] at h
                              exact absurd h (by simp)
                            · rw [if_neg hc6] at h ⊢
                              cases hnt1 : try_convert_namedtuple got with
                              | some got_again =>
                                cases hnt2 : try_convert_namedtuple want with
                                | some want_again =>
                                  simp only [hnt1, hnt2] at h ⊢
                                  exact ih _ _ h
                                | none =>
                                  simp only [hnt1, hnt2] at h
                                  exact absurd h (by simp)
                              | none =>
                                simp only [hnt1] at h
                                exact absurd h (by simp)

/-- C3: tolerance monotonicity.  If `check_output(a, b)` is `True`
under a configuration with tolerances `(atol, rtol)`, it stays `True`
under the configuration that is identical except for larger tolerances
`(atol', rtol')`. -/
theorem check_output_tolerance_monotone (cfg : DTConfig) (atol' rtol' : ℚ)
    (fuel : Nat) (want got : String)
    (ha : cfg.atol ≤ atol') (hr : cfg.rtol ≤ rtol')
    (h : check_output (DTChecker.init cfg) fuel want got =
      CheckResult.ret true) :
    check_output (DTChecker.init { cfg with atol := atol', rtol := rtol' })
      fuel want got = CheckResult.ret true :=
  check_output_mono_core cfg { cfg with atol := atol', rtol := rtol' }
    cfg.atol cfg.rtol atol' rtol' ("# _ignore" :: cfg.rndm_markers)
    rfl rfl rfl ha hr fuel want got h

/-- C3 witness: `"0.667"` vs `"0.6666666666666666"` passes under the
default tolerances and still passes after enlarging both to 1. -/
theorem check_output_tolerance_monotone_witness :
    (DTConfig.default.atol ≤ mkRat 1 1 ∧ DTConfig.default.rtol ≤ mkRat 1 1 ∧
      check_output (DTChecker.init DTConfig.default) 1 "0.667"
        "0.6666666666666666" = CheckResult.ret true) ∧
    check_output
      (DTChecker.init
        { DTConfig.default with atol := mkRat 1 1, rtol := mkRat 1 1 })
      1 "0.667" "0.6666666666666666" = CheckResult.ret true :=
  ⟨⟨by decide, by decide, by decide⟩,
    check_output_tolerance_monotone DTConfig.default (mkRat 1 1) (mkRat 1 1)
      1 "0.667" "0.6666666666666666" (by decide) (by decide) (by decide)⟩
